import Mathlib

/-
Shallow embedding of src/src/main.ts (WebXR AR model-placement app).

The program is single-threaded and event-driven: a per-frame render
callback (`render`), a controller `select` handler (`onSelect`), window
touch handlers (`setupTouchRotation`), asynchronous completions of the
GLTF load (`loadEngineModel` success/error callbacks), of the hit-test
source request chain issued inside `render`, and of the session start
(`startARSession`, lines 91-92 reset the hit-test state).  We model the
mutable module-level state as a record and each handler as a pure state
transformer; an `Event` is one handler invocation together with the data
the browser/XR runtime hands it, and a session run is a fold of `step`
over a list of events.

Numeric values (pixel coordinates, matrix entries, rotation) are
embedded as rationals.
-/

set_option autoImplicit false

namespace ARApp

/-- State of the loaded `engineModel` object (the three.js `Object3D`
fields that main.ts reads or writes: `position`, `rotation`, `scale`,
`visible`). -/
structure Model where
  posX : ℚ
  posY : ℚ
  posZ : ℚ
  rotX : ℚ
  rotY : ℚ
  rotZ : ℚ
  scaleX : ℚ
  scaleY : ℚ
  scaleZ : ℚ
  visible : Bool
deriving DecidableEq

/-- State of the `reticle` mesh: its visibility flag and its 4x4 matrix,
stored as the 16-element column-major array three.js uses (translation
components at indices 12, 13, 14). -/
structure Reticle where
  visible : Bool
  matrix : List ℚ
deriving DecidableEq

/-- What the XR runtime supplies to one invocation of the `render`
callback: whether the optional `frame` argument is present, whether
`renderer.xr.getSession()` / `renderer.xr.getReferenceSpace()` return
non-null, and the list returned by `frame.getHitTestResults` — each
entry being the result of that hit's `getPose(referenceSpace)`
(`none` when `getPose` returns null, `some` the pose's 16-element
transform matrix otherwise). -/
structure FrameInput where
  hasFrame : Bool
  hasSession : Bool
  hasReferenceSpace : Bool
  hitResults : List (Option (List ℚ))
deriving DecidableEq

/-- The module-level mutable state of main.ts.  `instruction` is the
text content of the `#instruction` DOM element (`none` when the element
is absent from the page).  `requestCount` is instrumentation: it counts
how many times the render callback has issued the
`requestReferenceSpace('viewer')` / `requestHitTestSource` chain
(main.ts lines 198-209); the program itself keeps no such counter. -/
structure AppState where
  reticle : Reticle
  hitTestSource : Bool
  hitTestSourceRequested : Bool
  engineModel : Option Model
  isPlaced : Bool
  startX : Option ℚ
  instruction : Option String
  requestCount : Nat
deriving DecidableEq

/-- One handler invocation, with the data the browser hands it.
`touchStart`/`touchMove` carry the `pageX` of each active touch point
(`e.touches`).  `loadSuccess` carries the decoded `gltf.scene`.
`sourceResolved`/`sourceError` are the continuations of the hit-test
source request; `sessionStarted` is the successful completion of
`startARSession` (its lines 91-92). -/
inductive Event where
  | frame (f : FrameInput)
  | select
  | touchStart (touches : List ℚ)
  | touchMove (touches : List ℚ)
  | touchEnd
  | loadSuccess (gltfScene : Model)
  | loadError
  | sourceResolved
  | sourceError
  | sessionStarted
deriving DecidableEq

/-- Text written to `#instruction` by `onSelect` (main.ts line 187). -/
def placedMsg : String :=
  "<b>Step 1 Complete:</b> Engine placed. Drag your finger horizontally to rotate it."

/-- Text written to `#instruction` by the GLTF error callback
(main.ts line 129). -/
def loadErrorMsg : String :=
  "<b>Error:</b> Could not load engine model. Check console for details."

/-- main.ts `onSelect` (lines 178-190): bail out unless the reticle is
visible and the model is loaded; otherwise copy the translation of the
reticle matrix into the model position, make the model visible, set
`isPlaced`, and update the instruction text if the element exists. -/
def onSelect (s : AppState) : AppState :=
  match s.engineModel with
  | none => s
  | some m =>
    if s.reticle.visible then
      { s with
        engineModel := some { m with
          posX := s.reticle.matrix.getD 12 0,
          posY := s.reticle.matrix.getD 13 0,
          posZ := s.reticle.matrix.getD 14 0,
          visible := true },
        isPlaced := true,
        instruction := s.instruction.map (fun _ => placedMsg) }
    else s

/-- main.ts `touchstart` handler (lines 161-164): ignored unless placed
and exactly one touch; otherwise record the touch's `pageX`. -/
def onTouchStart (touches : List ℚ) (s : AppState) : AppState :=
  match touches with
  | [x] => if s.isPlaced then { s with startX := some x } else s
  | _ => s

/-- main.ts `touchmove` handler (lines 166-171): ignored unless placed,
model loaded, exactly one touch, and a tracked start position; otherwise
add `deltaX * 0.01` to the model's y rotation and re-track `pageX`. -/
def onTouchMove (touches : List ℚ) (s : AppState) : AppState :=
  match s.engineModel, s.startX, touches with
  | some m, some sx, [x] =>
    if s.isPlaced then
      { s with
        engineModel := some { m with rotY := m.rotY + (x - sx) * (1 / 100) },
        startX := some x }
    else s
  | _, _, _ => s

/-- main.ts `touchend` handler (lines 173-175): clear the tracked start
position unconditionally. -/
def onTouchEnd (s : AppState) : AppState :=
  { s with startX := none }

/-- main.ts GLTF load success callback (lines 117-123): store the scene
as `engineModel`, scale it to 0.2 and hide it. -/
def onLoadSuccess (gltfScene : Model) (s : AppState) : AppState :=
  { s with engineModel := some { gltfScene with
      scaleX := 1 / 5, scaleY := 1 / 5, scaleZ := 1 / 5, visible := false } }

/-- main.ts GLTF load error callback (lines 125-132): log and rewrite
the instruction text if the element exists; `engineModel` stays unset. -/
def onLoadError (s : AppState) : AppState :=
  { s with instruction := s.instruction.map (fun _ => loadErrorMsg) }

/-- First half of the `render` frame body (main.ts lines 197-212): if a
session exists and no hit-test source request was issued yet this
session, issue the request chain (counted in `requestCount`) and set the
guard flag in the same synchronous step. -/
def issueHitTestRequest (f : FrameInput) (s : AppState) : AppState :=
  if f.hasSession && !s.hitTestSourceRequested then
    { s with hitTestSourceRequested := true, requestCount := s.requestCount + 1 }
  else s

/-- Second half of the `render` frame body (main.ts lines 214-226): if a
hit-test source and a reference space exist, query hit results; with at
least one result whose pose is valid, show the reticle and overwrite its
matrix from the first result's pose; with zero results hide it; with a
first result whose `getPose` returns null, change nothing. -/
def updateReticle (f : FrameInput) (s : AppState) : AppState :=
  if s.hitTestSource && f.hasReferenceSpace then
    match f.hitResults with
    | [] => { s with reticle := { s.reticle with visible := false } }
    | some poseMatrix :: _ =>
        { s with reticle := { visible := true, matrix := poseMatrix } }
    | none :: _ => s
  else s

/-- main.ts `render` callback (lines 192-230): the XR branch runs only
when the optional `frame` argument is present; the final
`renderer.render` call has no effect on the modelled state. -/
def renderStep (f : FrameInput) (s : AppState) : AppState :=
  if f.hasFrame then updateReticle f (issueHitTestRequest f s) else s

/-- Continuation of the hit-test source request (main.ts lines 203-206):
store the source. -/
def onSourceResolved (s : AppState) : AppState :=
  { s with hitTestSource := true }

/-- Successful completion of `startARSession` (main.ts lines 90-92):
reset the hit-test source and the request guard for the new session. -/
def onSessionStarted (s : AppState) : AppState :=
  { s with hitTestSource := false, hitTestSourceRequested := false }

/-- Dispatch one event to its handler.  `sourceError` (main.ts lines
207-209) only logs. -/
def step (e : Event) (s : AppState) : AppState :=
  match e with
  | .frame f => renderStep f s
  | .select => onSelect s
  | .touchStart ts => onTouchStart ts s
  | .touchMove ts => onTouchMove ts s
  | .touchEnd => onTouchEnd s
  | .loadSuccess g => onLoadSuccess g s
  | .loadError => onLoadError s
  | .sourceResolved => onSourceResolved s
  | .sourceError => s
  | .sessionStarted => onSessionStarted s

/-- Run a sequence of handler invocations. -/
def runTrace (events : List Event) (s : AppState) : AppState :=
  events.foldl (fun t e => step e t) s

/-- Column-major identity matrix, the initial `reticle.matrix`
(three.js default; `matrixAutoUpdate` is disabled at line 141). -/
def identityMatrix : List ℚ :=
  [1, 0, 0, 0, 0, 1, 0, 0, 0, 0, 1, 0, 0, 0, 0, 1]

/-- Module state right after `start()` has run its synchronous setup:
reticle hidden (line 142), no hit-test source or request, no model, not
placed, no tracked touch.  The initial instruction copy lives in the
host page, outside main.ts. -/
def init : AppState :=
  { reticle := { visible := false, matrix := identityMatrix },
    hitTestSource := false,
    hitTestSourceRequested := false,
    engineModel := none,
    isPlaced := false,
    startX := none,
    instruction := some "",
    requestCount := 0 }

/-- An event on which the render callback issues the hit-test source
request chain, provided the guard flag is still clear: a frame with the
`frame` argument present and an active session. -/
def triggersRequest : Event → Bool
  | .frame f => f.hasFrame && f.hasSession
  | _ => false

/-- Whether an event is the GLTF load success continuation. -/
def isLoadSuccess : Event → Bool
  | .loadSuccess _ => true
  | _ => false

/-- A sample pose matrix with translation (2, 3, 4). -/
def poseA : List ℚ :=
  [1, 0, 0, 0, 0, 1, 0, 0, 0, 0, 1, 0, 2, 3, 4, 1]

/-- A frame whose hit-test query returns one result with a valid pose. -/
def hitFrame : FrameInput :=
  { hasFrame := true, hasSession := true, hasReferenceSpace := true,
    hitResults := [some poseA] }

/-- A frame whose hit-test query returns zero results. -/
def missFrame : FrameInput :=
  { hasFrame := true, hasSession := true, hasReferenceSpace := true,
    hitResults := [] }

/-- A frame whose hit-test query returns one result whose `getPose`
returns null. -/
def noPoseFrame : FrameInput :=
  { hasFrame := true, hasSession := true, hasReferenceSpace := true,
    hitResults := [none] }

/-- Initial state after the hit-test source promise has resolved. -/
def sourceReadyState : AppState :=
  { init with hitTestSource := true }

/-- A loaded model in its post-load configuration. -/
def baseModel : Model :=
  { posX := 0, posY := 0, posZ := 0, rotX := 0, rotY := 0, rotZ := 0,
    scaleX := 1 / 5, scaleY := 1 / 5, scaleZ := 1 / 5, visible := false }

/-- A state in which the model is loaded and placed, the reticle is
visible at `poseA`, and a touch at pageX 100 is being tracked. -/
def placedState : AppState :=
  { init with
    engineModel := some baseModel,
    isPlaced := true,
    reticle := { visible := true, matrix := poseA },
    hitTestSource := true,
    startX := some 100 }

/-- A run in which the GLTF load fails and the user then taps on a
detected surface. -/
def failTrace : List Event :=
  [Event.loadError, Event.sourceResolved, Event.frame hitFrame, Event.select]

/-- A run with several frames around the source resolution. -/
def demoFrames : List Event :=
  [Event.frame hitFrame, Event.frame hitFrame, Event.sourceResolved,
   Event.frame hitFrame]

theorem issueHitTestRequest_hitTestSource (f : FrameInput) (s : AppState) :
    (issueHitTestRequest f s).hitTestSource = s.hitTestSource := by
  unfold issueHitTestRequest; split <;> rfl

theorem issueHitTestRequest_reticle (f : FrameInput) (s : AppState) :
    (issueHitTestRequest f s).reticle = s.reticle := by
  unfold issueHitTestRequest; split <;> rfl

theorem renderStep_preserves (f : FrameInput) (s : AppState) :
    (renderStep f s).isPlaced = s.isPlaced
    ∧ (renderStep f s).engineModel = s.engineModel
    ∧ (renderStep f s).startX = s.startX
    ∧ (renderStep f s).hitTestSource = s.hitTestSource
    ∧ (renderStep f s).instruction = s.instruction := by
  unfold renderStep updateReticle issueHitTestRequest
  repeat' split
  all_goals exact ⟨rfl, rfl, rfl, rfl, rfl⟩

theorem step_isPlaced_eq (e : Event) (s : AppState) (h : e ≠ Event.select) :
    (step e s).isPlaced = s.isPlaced := by
  cases e with
  | frame f => exact (renderStep_preserves f s).1
  | select => exact absurd rfl h
  | touchStart ts =>
    show (onTouchStart ts s).isPlaced = s.isPlaced
    unfold onTouchStart
    repeat' split
    all_goals rfl
  | touchMove ts =>
    show (onTouchMove ts s).isPlaced = s.isPlaced
    unfold onTouchMove
    repeat' split
    all_goals rfl
  | touchEnd => rfl
  | loadSuccess g => rfl
  | loadError => rfl
  | sourceResolved => rfl
  | sourceError => rfl
  | sessionStarted => rfl

theorem step_select_isPlaced (s : AppState) :
    (step Event.select s).isPlaced
      = (s.isPlaced || (s.reticle.visible && s.engineModel.isSome)) := by
  show (onSelect s).isPlaced = _
  unfold onSelect
  cases h : s.engineModel with
  | none => simp
  | some m =>
    by_cases hv : s.reticle.visible
    · simp [hv]
    · simp [hv]

/-- C1: the placement transition fires if and only if the reticle is
visible, the model has loaded, and a select event arrives; only the
select handler writes `isPlaced`, and `isPlaced` is monotone: once true
it stays true under every later event of the session. -/
theorem placement_transition_iff_and_monotonic :
    (∀ s : AppState,
      (step Event.select s).isPlaced
        = (s.isPlaced || (s.reticle.visible && s.engineModel.isSome)))
    ∧ (∀ (e : Event) (s : AppState), e ≠ Event.select →
        (step e s).isPlaced = s.isPlaced)
    ∧ (∀ (e : Event) (s : AppState), s.isPlaced = true →
        (step e s).isPlaced = true) := by
  refine ⟨step_select_isPlaced, step_isPlaced_eq, ?_⟩
  intro e s h
  by_cases he : e = Event.select
  · subst he
    rw [step_select_isPlaced s, h]
    rfl
  · rw [step_isPlaced_eq e s he, h]

/-- Witness for C1 at concrete inputs. -/
theorem placement_transition_witness :
    (step Event.touchEnd placedState).isPlaced = placedState.isPlaced
    ∧ (step (Event.frame hitFrame) placedState).isPlaced = true :=
  ⟨placement_transition_iff_and_monotonic.2.1 Event.touchEnd placedState (by decide),
   placement_transition_iff_and_monotonic.2.2 (Event.frame hitFrame) placedState rfl⟩

theorem updateReticle_first_hit (f : FrameInput) (s : AppState) (p : List ℚ)
    (rest : List (Option (List ℚ))) (hs : s.hitTestSource = true)
    (hr : f.hasReferenceSpace = true) (hh : f.hitResults = some p :: rest) :
    updateReticle f s = { s with reticle := { visible := true, matrix := p } } := by
  unfold updateReticle
  rw [hs, hr, hh]
  rfl

/-- C2: on every frame where the hit-test query runs and returns a first
result with a valid pose, the reticle becomes visible and its matrix is
overwritten with that first pose; the remaining results `rest` are
arbitrary and ignored. -/
theorem first_hit_updates_reticle (f : FrameInput) (s : AppState)
    (p : List ℚ) (rest : List (Option (List ℚ)))
    (hf : f.hasFrame = true) (hs : s.hitTestSource = true)
    (hr : f.hasReferenceSpace = true) (hh : f.hitResults = some p :: rest) :
    (step (Event.frame f) s).reticle.visible = true
    ∧ (step (Event.frame f) s).reticle.matrix = p := by
  have h1 : (issueHitTestRequest f s).hitTestSource = true := by
    rw [issueHitTestRequest_hitTestSource]; exact hs
  have h2 := updateReticle_first_hit f (issueHitTestRequest f s) p rest h1 hr hh
  constructor <;> simp [step, renderStep, hf, h2]

/-- Witness for C2 at concrete inputs. -/
theorem first_hit_witness :
    (step (Event.frame hitFrame) sourceReadyState).reticle.visible = true
    ∧ (step (Event.frame hitFrame) sourceReadyState).reticle.matrix = poseA :=
  first_hit_updates_reticle hitFrame sourceReadyState poseA [] rfl rfl rfl rfl

/-- C3 counterexample: a frame whose hit-test query returns one result
whose pose is null leaves a hidden reticle hidden, so "reticle visible
iff the frame returned at least one result" fails at this input. -/
theorem reticle_iff_results_counterexample :
    noPoseFrame.hitResults.length > 0
    ∧ (step (Event.frame noPoseFrame) sourceReadyState).reticle.visible = false :=
  ⟨by decide, rfl⟩

/-- C3 amended: after a frame on which the hit-test query runs, the
reticle is visible when the first result has a valid pose, hidden when
there are zero results, and unchanged when the first result's pose is
null. -/
theorem reticle_visibility_cases (f : FrameInput) (s : AppState)
    (hf : f.hasFrame = true) (hs : s.hitTestSource = true)
    (hr : f.hasReferenceSpace = true) :
    (step (Event.frame f) s).reticle.visible =
      (match f.hitResults with
       | [] => false
       | some _ :: _ => true
       | none :: _ => s.reticle.visible) := by
  have h1 : (issueHitTestRequest f s).hitTestSource = true := by
    rw [issueHitTestRequest_hitTestSource]; exact hs
  have h2 := issueHitTestRequest_reticle f s
  show (renderStep f s).reticle.visible = _
  unfold renderStep updateReticle
  rw [hf, h1, hr]
  cases hres : f.hitResults with
  | nil => simp [h2]
  | cons a t => cases a <;> simp [h2]

/-- Witness for the amended C3 at concrete inputs. -/
theorem reticle_visibility_cases_witness :
    (step (Event.frame missFrame) sourceReadyState).reticle.visible = false :=
  reticle_visibility_cases missFrame sourceReadyState rfl rfl rfl

theorem updateReticle_requestCount (f : FrameInput) (s : AppState) :
    (updateReticle f s).requestCount = s.requestCount := by
  unfold updateReticle
  repeat' split
  all_goals rfl

theorem updateReticle_guard (f : FrameInput) (s : AppState) :
    (updateReticle f s).hitTestSourceRequested = s.hitTestSourceRequested := by
  unfold updateReticle
  repeat' split
  all_goals rfl

theorem onSelect_fields (s : AppState) :
    (onSelect s).requestCount = s.requestCount
    ∧ (onSelect s).hitTestSourceRequested = s.hitTestSourceRequested
    ∧ (onSelect s).hitTestSource = s.hitTestSource
    ∧ (onSelect s).reticle = s.reticle
    ∧ (onSelect s).startX = s.startX := by
  unfold onSelect
  repeat' split
  all_goals exact ⟨rfl, rfl, rfl, rfl, rfl⟩

theorem onTouchStart_fields (ts : List ℚ) (s : AppState) :
    (onTouchStart ts s).requestCount = s.requestCount
    ∧ (onTouchStart ts s).hitTestSourceRequested = s.hitTestSourceRequested
    ∧ (onTouchStart ts s).engineModel = s.engineModel
    ∧ (onTouchStart ts s).isPlaced = s.isPlaced := by
  unfold onTouchStart
  repeat' split
  all_goals exact ⟨rfl, rfl, rfl, rfl⟩

theorem onTouchMove_fields (ts : List ℚ) (s : AppState) :
    (onTouchMove ts s).requestCount = s.requestCount
    ∧ (onTouchMove ts s).hitTestSourceRequested = s.hitTestSourceRequested
    ∧ (onTouchMove ts s).isPlaced = s.isPlaced := by
  unfold onTouchMove
  repeat' split
  all_goals exact ⟨rfl, rfl, rfl⟩

theorem step_requestCount (e : Event) (s : AppState) :
    (step e s).requestCount
      = s.requestCount
        + (if triggersRequest e && !s.hitTestSourceRequested then 1 else 0) := by
  cases e with
  | frame f =>
    show (renderStep f s).requestCount = _
    unfold renderStep
    cases hf : f.hasFrame with
    | false => simp [hf, triggersRequest]
    | true =>
      rw [if_pos rfl, updateReticle_requestCount]
      unfold issueHitTestRequest
      simp only [triggersRequest, hf, Bool.true_and]
      cases hc : (f.hasSession && !s.hitTestSourceRequested) <;> simp
  | select => exact (onSelect_fields s).1
  | touchStart ts => exact (onTouchStart_fields ts s).1
  | touchMove ts => exact (onTouchMove_fields ts s).1
  | touchEnd => rfl
  | loadSuccess g => rfl
  | loadError => rfl
  | sourceResolved => rfl
  | sourceError => rfl
  | sessionStarted => rfl

theorem step_guard (e : Event) (s : AppState) (h : e ≠ Event.sessionStarted) :
    (step e s).hitTestSourceRequested
      = (s.hitTestSourceRequested || triggersRequest e) := by
  cases e with
  | frame f =>
    show (renderStep f s).hitTestSourceRequested = _
    unfold renderStep
    cases hf : f.hasFrame with
    | false => simp [hf, triggersRequest]
    | true =>
      rw [if_pos rfl, updateReticle_guard]
      unfold issueHitTestRequest
      simp only [triggersRequest, hf, Bool.true_and]
      cases hg2 : s.hitTestSourceRequested with
      | false => cases hs2 : f.hasSession <;> simp [hs2, hg2]
      | true => simp [hg2]
  | select => exact ((onSelect_fields s).2.1).trans (Bool.or_false _).symm
  | touchStart ts =>
    exact ((onTouchStart_fields ts s).2.1).trans (Bool.or_false _).symm
  | touchMove ts =>
    exact ((onTouchMove_fields ts s).2.1).trans (Bool.or_false _).symm
  | touchEnd => exact (Bool.or_false _).symm
  | loadSuccess g => exact (Bool.or_false _).symm
  | loadError => exact (Bool.or_false _).symm
  | sourceResolved => exact (Bool.or_false _).symm
  | sourceError => exact (Bool.or_false _).symm
  | sessionStarted => exact absurd rfl h

theorem runTrace_guard_true (events : List Event) :
    ∀ s : AppState,
      (∀ e ∈ events, e ≠ Event.sessionStarted) →
      s.hitTestSourceRequested = true →
      (runTrace events s).requestCount = s.requestCount
      ∧ (runTrace events s).hitTestSourceRequested = true := by
  induction events with
  | nil => exact fun s _ hg => ⟨rfl, hg⟩
  | cons e es ih =>
    intro s hne hg
    have he : e ≠ Event.sessionStarted := hne e (List.mem_cons_self e es)
    have hes : ∀ x ∈ es, x ≠ Event.sessionStarted :=
      fun x hx => hne x (List.mem_cons_of_mem e hx)
    have hc : (step e s).requestCount = s.requestCount := by
      rw [step_requestCount]; simp [hg]
    have hgg : (step e s).hitTestSourceRequested = true := by
      rw [step_guard e s he, hg]
      exact Bool.true_or _
    have hrun : runTrace (e :: es) s = runTrace es (step e s) := rfl
    have h2 := ih (step e s) hes hgg
    exact ⟨by rw [hrun, h2.1, hc], by rw [hrun, h2.2]⟩

theorem runTrace_requestCount (events : List Event) :
    ∀ s : AppState,
      (∀ e ∈ events, e ≠ Event.sessionStarted) →
      s.hitTestSourceRequested = false →
      (runTrace events s).requestCount
        = s.requestCount + (if events.any triggersRequest then 1 else 0) := by
  induction events with
  | nil => intro s _ _; simp [runTrace]
  | cons e es ih =>
    intro s hne hg
    have he : e ≠ Event.sessionStarted := hne e (List.mem_cons_self e es)
    have hes : ∀ x ∈ es, x ≠ Event.sessionStarted :=
      fun x hx => hne x (List.mem_cons_of_mem e hx)
    have hrun : runTrace (e :: es) s = runTrace es (step e s) := rfl
    cases ht : triggersRequest e with
    | false =>
      have hc : (step e s).requestCount = s.requestCount := by
        rw [step_requestCount]; simp [ht]
      have hgg : (step e s).hitTestSourceRequested = false := by
        rw [step_guard e s he, hg, ht]
        exact Bool.false_or _
      rw [hrun, ih (step e s) hes hgg, hc]
      simp [List.any_cons, ht]
    | true =>
      have hc : (step e s).requestCount = s.requestCount + 1 := by
        rw [step_requestCount]; simp [ht, hg]
      have hgg : (step e s).hitTestSourceRequested = true := by
        rw [step_guard e s he, hg, ht]
        exact Bool.false_or _
      have h2 := runTrace_guard_true es (step e s) hes hgg
      rw [hrun, h2.1, hc]
      simp [List.any_cons, ht]

/-- C4: within one session (no `sessionStarted` event in the trace) and
starting with the guard clear, the hit-test source request chain is
issued exactly once when at least one frame has an active session, and
zero times otherwise, no matter how many frames run or when the source
resolves; whenever a step issues a request, the guard flag is set by
that same step; and a new session start resets both the source and the
guard. -/
theorem hit_test_request_once :
    (∀ (events : List Event) (s : AppState),
      (∀ e ∈ events, e ≠ Event.sessionStarted) →
      s.hitTestSourceRequested = false →
      (runTrace events s).requestCount
        = s.requestCount + (if events.any triggersRequest then 1 else 0))
    ∧ (∀ (e : Event) (s : AppState),
        (step e s).requestCount ≠ s.requestCount →
        (step e s).hitTestSourceRequested = true)
    ∧ (∀ s : AppState,
        (step Event.sessionStarted s).hitTestSource = false
        ∧ (step Event.sessionStarted s).hitTestSourceRequested = false) := by
  refine ⟨fun events => runTrace_requestCount events, ?_, fun s => ⟨rfl, rfl⟩⟩
  intro e s hne
  by_cases he : e = Event.sessionStarted
  · subst he
    exact absurd rfl hne
  · rw [step_guard e s he]
    cases hg : s.hitTestSourceRequested with
    | true => rfl
    | false =>
      cases ht : triggersRequest e with
      | true => rfl
      | false =>
        exact absurd (by rw [step_requestCount]; simp [ht]) hne

/-- Witness for C4 at a concrete trace: three frames with an active
session, the source resolving between the second and the third. -/
theorem hit_test_request_once_witness :
    (runTrace demoFrames init).requestCount
      = init.requestCount + (if demoFrames.any triggersRequest then 1 else 0) :=
  hit_test_request_once.1 demoFrames init (by decide) rfl

theorem touchStart_eq (s : AppState) (x : ℚ) (hp : s.isPlaced = true) :
    step (Event.touchStart [x]) s = { s with startX := some x } := by
  show (if s.isPlaced = true then { s with startX := some x } else s) = _
  rw [if_pos hp]

theorem touchMove_eq (s : AppState) (m : Model) (sx x : ℚ)
    (hp : s.isPlaced = true) (hm : s.engineModel = some m)
    (hx : s.startX = some sx) :
    step (Event.touchMove [x]) s
      = { s with
          engineModel := some { m with rotY := m.rotY + (x - sx) * (1 / 100) },
          startX := some x } := by
  show onTouchMove [x] s = _
  unfold onTouchMove
  rw [hm, hx]
  show (if s.isPlaced = true
        then { s with
               engineModel := some { m with rotY := m.rotY + (x - sx) * (1 / 100) },
               startX := some x }
        else s) = _
  rw [if_pos hp]

/-- C5: while placed, each touch-move with a single touch adds the pixel
delta from the previously tracked X times the 0.01 sensitivity to the
model's y rotation (no clamping), re-tracking the new X; in particular
the drag delta sequence +10, -5, +20 starting from pageX `x` changes the
cumulative rotation by exactly 1/4 radians. -/
theorem drag_rotation :
    (∀ (s : AppState) (m : Model) (sx x : ℚ),
      s.isPlaced = true → s.engineModel = some m → s.startX = some sx →
      step (Event.touchMove [x]) s
        = { s with
            engineModel := some { m with rotY := m.rotY + (x - sx) * (1 / 100) },
            startX := some x })
    ∧ (∀ (s : AppState) (m : Model) (x : ℚ),
      s.isPlaced = true → s.engineModel = some m →
      (runTrace
        [Event.touchStart [x], Event.touchMove [x + 10],
         Event.touchMove [x + 10 + -5], Event.touchMove [x + 10 + -5 + 20]]
        s).engineModel.map Model.rotY
      = some (m.rotY + 1 / 4)) := by
  refine ⟨touchMove_eq, ?_⟩
  intro s m x hp hm
  have hrun : runTrace
      [Event.touchStart [x], Event.touchMove [x + 10],
       Event.touchMove [x + 10 + -5], Event.touchMove [x + 10 + -5 + 20]] s
    = step (Event.touchMove [x + 10 + -5 + 20])
        (step (Event.touchMove [x + 10 + -5])
          (step (Event.touchMove [x + 10]) (step (Event.touchStart [x]) s))) := rfl
  rw [hrun]
  simp only [step]
  unfold onTouchStart onTouchMove
  simp [hm, hp] <;> ring

/-- Witness for C5 at a concrete drag from pageX 100. -/
theorem drag_rotation_witness :
    (runTrace
      [Event.touchStart [100], Event.touchMove [100 + 10],
       Event.touchMove [100 + 10 + -5], Event.touchMove [100 + 10 + -5 + 20]]
      placedState).engineModel.map Model.rotY
    = some (baseModel.rotY + 1 / 4) :=
  drag_rotation.2 placedState baseModel 100 rfl rfl

theorem onTouchStart_unplaced (ts : List ℚ) (s : AppState)
    (hp : s.isPlaced = false) : onTouchStart ts s = s := by
  unfold onTouchStart
  repeat' split
  all_goals try rfl
  all_goals rename_i h; rw [hp] at h; simp at h

theorem onTouchMove_unplaced (ts : List ℚ) (s : AppState)
    (hp : s.isPlaced = false) : onTouchMove ts s = s := by
  unfold onTouchMove
  repeat' split
  all_goals try rfl
  all_goals rename_i h; rw [hp] at h; simp at h

/-- C6: before placement, the touch-start and touch-move handlers leave
the whole state unchanged, and the touch-end handler leaves the model's
rotation unchanged: no touch input rotates the model while `isPlaced` is
false. -/
theorem no_rotation_before_placement (s : AppState) (ts : List ℚ)
    (hp : s.isPlaced = false) :
    step (Event.touchStart ts) s = s
    ∧ step (Event.touchMove ts) s = s
    ∧ (step Event.touchEnd s).engineModel.map Model.rotY
      = s.engineModel.map Model.rotY :=
  ⟨onTouchStart_unplaced ts s hp, onTouchMove_unplaced ts s hp, rfl⟩

/-- Witness for C6 at a concrete unplaced state. -/
theorem no_rotation_before_placement_witness :
    step (Event.touchMove [42]) init = init :=
  (no_rotation_before_placement init [42] rfl).2.1

theorem onSelect_no_model (s : AppState) (hm : s.engineModel = none) :
    onSelect s = s := by
  unfold onSelect
  rw [hm]

theorem onTouchMove_no_model (ts : List ℚ) (s : AppState)
    (hm : s.engineModel = none) : onTouchMove ts s = s := by
  unfold onTouchMove
  rw [hm]

theorem step_no_model (e : Event) (s : AppState)
    (he : isLoadSuccess e = false) (hm : s.engineModel = none) :
    (step e s).engineModel = none ∧ (step e s).isPlaced = s.isPlaced := by
  cases e with
  | frame f =>
    refine ⟨?_, (renderStep_preserves f s).1⟩
    show (renderStep f s).engineModel = none
    rw [(renderStep_preserves f s).2.1]
    exact hm
  | select =>
    rw [show step Event.select s = s from onSelect_no_model s hm]
    exact ⟨hm, rfl⟩
  | touchStart ts =>
    exact ⟨((onTouchStart_fields ts s).2.2.1).trans hm,
      (onTouchStart_fields ts s).2.2.2⟩
  | touchMove ts =>
    rw [show step (Event.touchMove ts) s = s from onTouchMove_no_model ts s hm]
    exact ⟨hm, rfl⟩
  | touchEnd => exact ⟨hm, rfl⟩
  | loadSuccess g => simp [isLoadSuccess] at he
  | loadError => exact ⟨hm, rfl⟩
  | sourceResolved => exact ⟨hm, rfl⟩
  | sourceError => exact ⟨hm, rfl⟩
  | sessionStarted => exact ⟨hm, rfl⟩

theorem runTrace_no_model (events : List Event) :
    ∀ s : AppState,
      (∀ e ∈ events, isLoadSuccess e = false) →
      s.engineModel = none → s.isPlaced = false →
      (runTrace events s).engineModel = none
      ∧ (runTrace events s).isPlaced = false := by
  induction events with
  | nil => exact fun s _ hm hp => ⟨hm, hp⟩
  | cons e es ih =>
    intro s hne hm hp
    have he := hne e (List.mem_cons_self e es)
    have hes : ∀ x ∈ es, isLoadSuccess x = false :=
      fun x hx => hne x (List.mem_cons_of_mem e hx)
    have h1 := step_no_model e s he hm
    exact ih (step e s) hes h1.1 (h1.2.trans hp)

/-- C7: the load error callback leaves the model reference unset, and in
any run whose events never include a load success — in particular one
where the load failed — the model reference stays `none` and every
select event (whatever the reticle state) leaves `isPlaced` false. -/
theorem load_failure_blocks_placement :
    ((step Event.loadError init).engineModel = none
      ∧ ∀ s : AppState, (step Event.loadError s).engineModel = s.engineModel)
    ∧ (∀ (events : List Event) (s : AppState),
        (∀ e ∈ events, isLoadSuccess e = false) →
        s.engineModel = none → s.isPlaced = false →
        (runTrace events s).engineModel = none
        ∧ (runTrace events s).isPlaced = false) :=
  ⟨⟨rfl, fun _ => rfl⟩, fun events => runTrace_no_model events⟩

/-- Witness for C7: after a failed load, a frame with a visible-surface
hit and a subsequent select still leave no model and no placement. -/
theorem load_failure_witness :
    (runTrace failTrace init).engineModel = none
    ∧ (runTrace failTrace init).isPlaced = false :=
  load_failure_blocks_placement.2 failTrace init (by decide) rfl rfl

theorem onTouchStart_multi (ts : List ℚ) (s : AppState) (h : ts.length ≠ 1) :
    onTouchStart ts s = s := by
  rcases ts with _ | ⟨a, _ | ⟨b, t⟩⟩
  · rfl
  · exact absurd rfl h
  · rfl

theorem onTouchMove_multi (ts : List ℚ) (s : AppState) (h : ts.length ≠ 1) :
    onTouchMove ts s = s := by
  unfold onTouchMove
  repeat' split
  all_goals try rfl
  all_goals exact absurd rfl h

/-- C8: with other than exactly one active touch, the touch-start and
touch-move handlers leave the state — in particular the tracked start
X — completely unchanged (ignored, not reset), so a following
single-touch move rotates from the retained start X. -/
theorem multi_touch_suspends_not_resets :
    (∀ (s : AppState) (ts : List ℚ), ts.length ≠ 1 →
      step (Event.touchStart ts) s = s ∧ step (Event.touchMove ts) s = s)
    ∧ (∀ (s : AppState) (m : Model) (sx x : ℚ) (ts : List ℚ), ts.length ≠ 1 →
      s.isPlaced = true → s.engineModel = some m → s.startX = some sx →
      step (Event.touchMove [x]) (step (Event.touchMove ts) s)
        = { s with
            engineModel := some { m with rotY := m.rotY + (x - sx) * (1 / 100) },
            startX := some x }) := by
  constructor
  · exact fun s ts h => ⟨onTouchStart_multi ts s h, onTouchMove_multi ts s h⟩
  · intro s m sx x ts h hp hm hx
    rw [show step (Event.touchMove ts) s = s from onTouchMove_multi ts s h]
    exact touchMove_eq s m sx x hp hm hx

/-- Witness for C8: a two-finger move at the placed state changes
nothing, and the next one-finger move rotates from the retained start
X of 100. -/
theorem multi_touch_witness :
    step (Event.touchMove [130]) (step (Event.touchMove [1, 2]) placedState)
      = { placedState with
          engineModel := some { baseModel with
            rotY := baseModel.rotY + (130 - 100) * (1 / 100) },
          startX := some 130 } :=
  multi_touch_suspends_not_resets.2 placedState baseModel 100 130 [1, 2]
    (by decide) rfl rfl rfl

theorem onSelect_eq (s : AppState) (m : Model)
    (hv : s.reticle.visible = true) (hm : s.engineModel = some m) :
    onSelect s
      = { s with
          engineModel := some { m with
            posX := s.reticle.matrix.getD 12 0,
            posY := s.reticle.matrix.getD 13 0,
            posZ := s.reticle.matrix.getD 14 0,
            visible := true },
          isPlaced := true,
          instruction := s.instruction.map (fun _ => placedMsg) } := by
  unfold onSelect
  rw [hm]
  show (if s.reticle.visible = true then _ else s) = _
  rw [if_pos hv]

/-- C9: the select handler has no already-placed guard: with the reticle
visible and the model loaded, a select event arriving when `isPlaced` is
already true still overwrites the model position with the reticle
matrix's translation (and keeps the model visible). -/
theorem select_repositions_after_placement (s : AppState) (m : Model)
    (hp : s.isPlaced = true) (hv : s.reticle.visible = true)
    (hm : s.engineModel = some m) :
    (step Event.select s).engineModel.map
        (fun mm => (mm.posX, mm.posY, mm.posZ))
      = some (s.reticle.matrix.getD 12 0, s.reticle.matrix.getD 13 0,
              s.reticle.matrix.getD 14 0)
    ∧ (step Event.select s).engineModel.map Model.visible = some true := by
  rw [show step Event.select s = _ from onSelect_eq s m hv hm]
  exact ⟨rfl, rfl⟩

/-- Witness for C9 at the already-placed state. -/
theorem select_repositions_witness :
    (step Event.select placedState).engineModel.map
        (fun mm => (mm.posX, mm.posY, mm.posZ))
      = some (placedState.reticle.matrix.getD 12 0,
              placedState.reticle.matrix.getD 13 0,
              placedState.reticle.matrix.getD 14 0)
    ∧ (step Event.select placedState).engineModel.map Model.visible
      = some true :=
  select_repositions_after_placement placedState baseModel rfl rfl rfl

/-- C10: a successful placement rewrites exactly the model position, the
model visibility, `isPlaced`, and the instruction text; the model's
rotation and scale fields and the reticle, hit-test flags, tracked
touch, and request count are carried over unchanged. -/
theorem placement_frame_effect (s : AppState) (m : Model)
    (hv : s.reticle.visible = true) (hm : s.engineModel = some m) :
    step Event.select s
      = { s with
          engineModel := some { m with
            posX := s.reticle.matrix.getD 12 0,
            posY := s.reticle.matrix.getD 13 0,
            posZ := s.reticle.matrix.getD 14 0,
            visible := true },
          isPlaced := true,
          instruction := s.instruction.map (fun _ => placedMsg) } :=
  onSelect_eq s m hv hm

/-- Witness for C10 at the visible-reticle placed state. -/
theorem placement_frame_effect_witness :
    step Event.select placedState
      = { placedState with
          engineModel := some { baseModel with
            posX := placedState.reticle.matrix.getD 12 0,
            posY := placedState.reticle.matrix.getD 13 0,
            posZ := placedState.reticle.matrix.getD 14 0,
            visible := true },
          isPlaced := true,
          instruction := placedState.instruction.map (fun _ => placedMsg) } :=
  placement_frame_effect placedState baseModel rfl rfl

end ARApp
